import Mathlib

/-!
Verification of the alarm-to-ticket Lambda handler
(`src/lambda/jira_issue/index.py`): a shallow embedding of its
configuration resolution, event normalization, ticket-field building and
per-record filing orchestration, together with theorems settling the
specified properties.

Python dynamic values are embedded as the inductive `PyVal`; Python
strings (sequences of code points) are Lean `String`s, with the string
operations the handler uses (`[:n]`, `startswith`, `endswith`, `split`,
`strip`, `replace`, `join`, `lower`) re-implemented over `String.data`
so that every definition is executable and kernel-reducible.

External collaborators (the secret store, `json.loads`, the tracker
client's `projects()` listing and `create_issue`) are parameters of the
`Config` structure: the handler consumes them through exactly the calls
the source makes.
-/

namespace JiraAlarm

/-- A Python value as produced by `json.loads` / manipulated by the
handler: `None`, booleans, integers, strings, lists and dicts (dicts as
association lists; lookup takes the last binding, matching Python's
later-assignment-wins semantics). -/
inductive PyVal where
  | none
  | bool (b : Bool)
  | int (n : Int)
  | str (s : String)
  | list (xs : List PyVal)
  | dict (kvs : List (String × PyVal))

/-- Python truthiness (`bool(v)`): `None`, `False`, `0`, `""`, `[]` and
`\x7b\x7d` are falsy, everything else truthy. -/
def truthy : PyVal → Bool
  | .none => false
  | .bool b => b
  | .int n => n != 0
  | .str s => s != ""
  | .list xs => !xs.isEmpty
  | .dict kvs => !kvs.isEmpty

/-- `d.get(k)` on a Python dict: the last binding for `k`, if any. -/
def dictGet (kvs : List (String × PyVal)) (k : String) : Option PyVal :=
  (kvs.reverse.find? (fun p => p.1 == k)).map (fun p => p.2)

/-- `k in d` on a Python dict. -/
def dictContains (kvs : List (String × PyVal)) (k : String) : Bool :=
  (dictGet kvs k).isSome

/-- `len(d)` on a Python dict: the number of distinct keys. -/
def dictLen (kvs : List (String × PyVal)) : Nat :=
  ((kvs.map Prod.fst).eraseDups).length

/-- `s[:n]` on a Python string (slice of the first `n` code points). -/
def pytake (s : String) (n : Nat) : String := String.mk (s.data.take n)

/-- `len(s)` on a Python string (number of code points). -/
def pylen (s : String) : Nat := s.data.length

/-- `s.startswith(p)`. -/
def pystarts (s p : String) : Bool := p.data.isPrefixOf s.data

/-- `s.endswith(p)`. -/
def pyends (s p : String) : Bool := p.data.isSuffixOf s.data

/-- `s[2:-2]` on a Python string. -/
def pytrimEnds2 (s : String) : String :=
  String.mk (((s.data.drop 2).dropLast).dropLast)

/-- Character-list worker for Python `str.split(sep)`: fuel-driven so
the definition is structurally recursive (hence kernel-reducible); the
fuel passed by `pysplit` always suffices for a non-empty separator. -/
def splitChars (sep : List Char) : Nat → List Char → List Char → List (List Char)
  | 0, l, acc => [acc.reverse ++ l]
  | _ + 1, [], acc => [acc.reverse]
  | n + 1, c :: rest, acc =>
    if sep.isPrefixOf (c :: rest) then
      acc.reverse :: splitChars sep n ((c :: rest).drop sep.length) []
    else
      splitChars sep n rest (c :: acc)

/-- Python `s.split(sep)` for a non-empty separator (all the separators
this handler splits on are non-empty constants). -/
def pysplit (sep s : String) : List String :=
  (splitChars sep.data (s.data.length + 1) s.data []).map String.mk

/-- Python `sep.join(parts)`. -/
def pyjoin (sep : String) : List String → String
  | [] => ""
  | [x] => x
  | x :: y :: xs => x ++ sep ++ pyjoin sep (y :: xs)

/-- Python `s.split(sep, maxsplit)`: at most `maxsplit` splits, the
remainder re-joined into the final field. -/
def pysplitMax (sep s : String) (maxsplit : Nat) : List String :=
  let parts := pysplit sep s
  if parts.length ≤ maxsplit + 1 then parts
  else parts.take maxsplit ++ [pyjoin sep (parts.drop maxsplit)]

/-- Python `sub in s` (substring containment, non-empty `sub`). -/
def pycontains (s sub : String) : Bool := (pysplit sub s).length ≥ 2

/-- Whitespace stripped by Python `str.strip()`. -/
def pyIsSpace (c : Char) : Bool :=
  c == ' ' || c == '\t' || c == '\n' || c == '\r' || c == '\x0b' || c == '\x0c'

/-- Python `s.strip()`. -/
def pystrip (s : String) : String :=
  String.mk (((s.data.dropWhile pyIsSpace).reverse.dropWhile pyIsSpace).reverse)

/-- Python `s.replace(old, new)` for non-empty `old` (split-and-join). -/
def pyreplace (s old new : String) : String :=
  pyjoin new (pysplit old s)

/-- Python `s.lower()` (ASCII case folding suffices for this handler's
configuration values). -/
def pylower (s : String) : String := String.mk (s.data.map Char.toLower)

/-- `s[n:]` on a Python string. -/
def pydropLeft (s : String) (n : Nat) : String := String.mk (s.data.drop n)

/-- A single-quote character as a string (used by Python `repr` and by
exception messages such as `str(KeyError(k))`). -/
def sq : String := String.mk [Char.ofNat 39]

/-- `repr(k)` quoting for strings: wrap in single quotes. -/
def pyq (s : String) : String := sq ++ s ++ sq

mutual
/-- Python `repr(v)` (scalar forms exact; string escaping inside
containers elided, which this handler never observes). -/
def pyRepr : PyVal → String
  | .none => "None"
  | .bool b => if b then "True" else "False"
  | .int n => toString n
  | .str s => pyq s
  | .list xs => "[" ++ pyReprSeq xs ++ "]"
  | .dict kvs => "\x7b" ++ pyReprPairs kvs ++ "\x7d"
/-- Comma-joined `repr`s of list elements. -/
def pyReprSeq : List PyVal → String
  | [] => ""
  | [x] => pyRepr x
  | x :: y :: xs => pyRepr x ++ ", " ++ pyReprSeq (y :: xs)
/-- Comma-joined `repr`s of dict entries. -/
def pyReprPairs : List (String × PyVal) → String
  | [] => ""
  | [(k, v)] => pyq k ++ ": " ++ pyRepr v
  | (k, v) :: p :: xs => pyq k ++ ": " ++ pyRepr v ++ ", " ++ pyReprPairs (p :: xs)
end

/-- Python `str(v)` as used by f-string interpolation: identity on
strings, `repr` otherwise (coincides with `str` on scalars and
containers). -/
def pyStr : PyVal → String
  | .str s => s
  | v => pyRepr v

/-- Escaping applied by `json.dumps` to string values (the cases this
handler can produce). -/
def jsonEscapeChar : Char → String
  | '\\' => "\\\\"
  | '\"' => "\\\""
  | '\n' => "\\n"
  | '\t' => "\\t"
  | '\r' => "\\r"
  | c => String.mk [c]

/-- A JSON string literal for `json.dumps`. -/
def jsonQuote (s : String) : String :=
  "\"" ++ (s.data.foldr (fun c acc => jsonEscapeChar c ++ acc) "") ++ "\""

mutual
/-- `json.dumps(v, indent=2, default=str)` at the indentation prefix
`ind` of the enclosing container. -/
def dumps2 (ind : String) : PyVal → String
  | .none => "null"
  | .bool b => if b then "true" else "false"
  | .int n => toString n
  | .str s => jsonQuote s
  | .list [] => "[]"
  | .list (x :: xs) =>
    "[\n" ++ dumps2Seq (ind ++ "  ") (x :: xs) ++ "\n" ++ ind ++ "]"
  | .dict [] => "\x7b\x7d"
  | .dict (kv :: kvs) =>
    "\x7b\n" ++ dumps2Pairs (ind ++ "  ") (kv :: kvs) ++ "\n" ++ ind ++ "\x7d"
/-- Lines of an indented JSON array body. -/
def dumps2Seq (ind : String) : List PyVal → String
  | [] => ""
  | [x] => ind ++ dumps2 ind x
  | x :: y :: xs => ind ++ dumps2 ind x ++ ",\n" ++ dumps2Seq ind (y :: xs)
/-- Lines of an indented JSON object body. -/
def dumps2Pairs (ind : String) : List (String × PyVal) → String
  | [] => ""
  | [(k, v)] => ind ++ jsonQuote k ++ ": " ++ dumps2 ind v
  | (k, v) :: p :: xs =>
    ind ++ jsonQuote k ++ ": " ++ dumps2 ind v ++ ",\n" ++ dumps2Pairs ind (p :: xs)
end

/-- `json.dumps(v, indent=2, default=str)` as called by the handler. -/
def jsonDumpsIndent2 (v : PyVal) : String := dumps2 "" v

/-- The exceptions the embedded code can raise.  `unsupportedEventShape`
is the `ValueError("Unsupported event payload format for CloudWatch
alarm")` of `_extract_alarm_payloads`; `configurationError` is the
`EnvironmentError` of `_get_env`; `secretAccessError` models the
secret-store client failing to return a secret string. -/
inductive Err where
  | unsupportedEventShape
  | configurationError (name : String)
  | valueError (msg : String)
  | keyError (key : String)
  | typeError (msg : String)
  | attributeError (msg : String)
  | runtimeError (msg : String)
  | secretAccessError (secretId : String)
deriving DecidableEq

/-- `str(exc)` for each modelled exception (feeds the `details` field of
`unexpected_exception` outcomes). -/
def errMsg : Err → String
  | .unsupportedEventShape => "Unsupported event payload format for CloudWatch alarm"
  | .configurationError name => "Environment variable " ++ pyq name ++ " is required"
  | .valueError m => m
  | .keyError k => pyq k
  | .typeError m => m
  | .attributeError m => m
  | .runtimeError m => m
  | .secretAccessError secretId => "unable to fetch secret " ++ pyq secretId

/-- An exception raised by the tracker client's `create_issue`: either a
`JIRAError` carrying its `text`, or any other exception. -/
inductive CreateExc where
  | jira (text : String)
  | other (msg : String)
deriving DecidableEq

/-- The handler's environment: the process environment, the secret
store (`get_secret_value(id)`, `none` when the fetch fails), the JSON
decoder (`json.loads`, `none` on `JSONDecodeError`), the tracker's
project listing (name/key pairs, as a successful `client.projects()`
call yields them) and its `create_issue` operation. -/
structure Config where
  env : String → Option String
  secrets : String → Option String
  loads : String → Option PyVal
  projects : List (String × String)
  create : PyVal → Except CreateExc String

/-- `_resolve_secret_reference(value)`: dereference a
`\x7b\x7bresolve:secretsmanager:...\x7d\x7d` pointer.  A value without the
exact opening and closing delimiters is returned unchanged; a
`SecretString`-less reference raises `ValueError`; with no JSON key the
raw secret string is returned; with a key the secret must decode as JSON
and the key must be present (`ValueError` / `KeyError` otherwise, the
`TypeError`s mirroring CPython's behaviour when the decoded secret is
not a dict). -/
def _resolve_secret_reference (cfg : Config) (value : String) : Except Err PyVal :=
  if value = "" || !pystarts value "\x7b\x7bresolve:secretsmanager:" || !pyends value "\x7d\x7d" then
    .ok (.str value)
  else
    let body := pytrimEnds2 value
    match pysplitMax ":" body 2 with
    | [_, service, remainder] =>
      if service ≠ "secretsmanager" then .ok (.str value)
      else if !pycontains remainder ":SecretString" then
        .error (.valueError ("Secrets Manager reference missing SecretString directive: " ++ value))
      else
        let pieces := pysplitMax ":SecretString" remainder 1
        let secret_id := pystrip (pieces.headD "")
        let json_selector := pieces.getD 1 ""
        let key : Option String :=
          if pystarts json_selector ":" then
            let k := (pysplit ":" (pydropLeft json_selector 1)).headD ""
            if k = "" then Option.none else some k
          else Option.none
        match cfg.secrets secret_id with
        | Option.none => .error (.secretAccessError secret_id)
        | some secret_string =>
          match key with
          | Option.none => .ok (.str secret_string)
          | some k =>
            match cfg.loads secret_string with
            | Option.none =>
              .error (.valueError ("Secret " ++ pyq secret_id ++ " is not JSON; cannot extract key " ++ pyq k))
            | some (.dict kvs) =>
              match dictGet kvs k with
              | some v => .ok v
              | Option.none => .error (.keyError k)
            | some (.str s2) =>
              if pycontains s2 k then .error (.typeError "string indices must be integers")
              else .error (.keyError k)
            | some (.list xs) =>
              if xs.any (fun x => match x with | .str s => s == k | _ => false) then
                .error (.typeError "list indices must be integers or slices, not str")
              else .error (.keyError k)
            | some _ => .error (.typeError "argument is not iterable")
    | _ => .error (.valueError ("Malformed secrets manager reference: " ++ value))

/-- `_get_secret_payload()`: the optional whole-object fallback secret
named by `JIRA_SECRET_NAME` (empty when that variable is unset or
empty), which must decode to a JSON object. -/
def _get_secret_payload (cfg : Config) : Except Err (List (String × PyVal)) :=
  match cfg.env "JIRA_SECRET_NAME" with
  | Option.none => .ok []
  | some secret_name =>
    if secret_name = "" then .ok []
    else
      match cfg.secrets secret_name with
      | Option.none => .error (.secretAccessError secret_name)
      | some secret_string =>
        match cfg.loads secret_string with
        | Option.none => .error (.valueError ("Secret " ++ pyq secret_name ++ " is not valid JSON"))
        | some (.dict kvs) => .ok kvs
        | some _ => .error (.valueError ("Secret " ++ pyq secret_name ++ " must resolve to a JSON object"))

/-- The environment-read-and-dereference step of `_get_env`: the raw
environment value (Python `None` when unset), with a non-empty string
dereferenced through `_resolve_secret_reference` and kept raw when the
reference resolves to `None`. -/
def envStep (cfg : Config) (name : String) : Except Err PyVal :=
  match cfg.env name with
  | Option.none => .ok .none
  | some s =>
    if s ≠ "" then
      match _resolve_secret_reference cfg s with
      | .error e => .error e
      | .ok resolved =>
        .ok (match resolved with | .none => PyVal.str s | r => r)
    else .ok (.str s)

/-- The fallback-payload step of `_get_env`: a falsy current value is
replaced by the payload entry for `name` when one exists. -/
def fallbackStep (cfg : Config) (name : String) (v : PyVal) : Except Err PyVal :=
  if truthy v then .ok v
  else
    match _get_secret_payload cfg with
    | .error e => .error e
    | .ok payload =>
      match dictGet payload name with
      | some pv => .ok pv
      | Option.none => .ok v

/-- `_get_env(name, required=..., default=...)`: the environment value
(dereferenced when non-empty, keeping the raw string if the reference
resolved to `None`), else the fallback-payload entry when the current
value is falsy, else `default` when the value is `None`; raises
`EnvironmentError` when `required` and the final value is falsy. -/
def _get_env (cfg : Config) (name : String) (required : Bool) (default : PyVal) : Except Err PyVal :=
  match envStep cfg name with
  | .error e => .error e
  | .ok v1 =>
    match fallbackStep cfg name v1 with
    | .error e => .error e
    | .ok v2 =>
      let v3 := match v2 with
        | .none => default
        | v => v
      if required && !truthy v3 then .error (.configurationError name)
      else .ok v3

/-- `get_jira_client()`: resolves the three required tracker settings
(the client construction itself is an external call modelled as
succeeding). -/
def get_jira_client (cfg : Config) : Except Err Unit :=
  match _get_env cfg "JIRA_HOST" true .none with
  | .error e => .error e
  | .ok _ =>
    match _get_env cfg "JIRA_EMAIL" true .none with
    | .error e => .error e
    | .ok _ =>
      match _get_env cfg "JIRA_API_TOKEN" true .none with
      | .error e => .error e
      | .ok _ => .ok ()

/-- `get_project_key()`: the configured `JIRA_PROJECT_KEY` when truthy,
else the key of the first listed project whose name case-insensitively
equals the required `JIRA_PROJECT_NAME` (`RuntimeError` when none
matches; a non-string name only raises `AttributeError` once the first
comparison runs). -/
def get_project_key (cfg : Config) : Except Err PyVal :=
  match _get_env cfg "JIRA_PROJECT_KEY" false .none with
  | .error e => .error e
  | .ok cached_key =>
    if truthy cached_key then .ok cached_key
    else
      match _get_env cfg "JIRA_PROJECT_NAME" true .none with
      | .error e => .error e
      | .ok project_name =>
        match get_jira_client cfg with
        | .error e => .error e
        | .ok _ =>
          match project_name with
          | .str pname =>
            match cfg.projects.find? (fun p => pylower p.1 == pylower pname) with
            | some p => .ok (.str p.2)
            | Option.none =>
              .error (.runtimeError ("Unable to resolve Jira project key for name " ++ pyq pname))
          | _ =>
            if cfg.projects.isEmpty then
              .error (.runtimeError "Unable to resolve Jira project key")
            else .error (.attributeError "lower")

/-- `get_issue_type()`: `JIRA_ISSUE_TYPE` with default `"Task"`, and
`or "Task"` again should the resolved value be falsy. -/
def get_issue_type (cfg : Config) : Except Err PyVal :=
  match _get_env cfg "JIRA_ISSUE_TYPE" false (.str "Task") with
  | .error e => .error e
  | .ok v => .ok (if truthy v then v else .str "Task")

/-- `get_alarm_label()`: the comma-separated `JIRA_ALARM_LABEL` tokens,
each stripped and with spaces replaced by hyphens, empty tokens
dropped; `[]` when the setting is falsy. -/
def get_alarm_label (cfg : Config) : Except Err (List String) :=
  match _get_env cfg "JIRA_ALARM_LABEL" false .none with
  | .error e => .error e
  | .ok raw =>
    if truthy raw then
      match raw with
      | .str s =>
        .ok (((pysplit "," s).filter (fun part => pystrip part ≠ "")).map
          (fun part => pyreplace (pystrip part) " " "-"))
      | _ => .error (.attributeError "split")
    else .ok []

/-- `get_components()`: the comma-separated `JIRA_COMPONENTS` tokens,
stripped, empty tokens dropped; `[]` when the setting is falsy. -/
def get_components (cfg : Config) : Except Err (List String) :=
  match _get_env cfg "JIRA_COMPONENTS" false .none with
  | .error e => .error e
  | .ok raw =>
    if truthy raw then
      match raw with
      | .str s => .ok (((pysplit "," s).filter (fun c => pystrip c ≠ "")).map pystrip)
      | _ => .error (.attributeError "split")
    else .ok []

/-- `_maybe_json(value)`: decode a string as JSON, keeping it verbatim
on `JSONDecodeError`; non-strings pass through. -/
def _maybe_json (loads : String → Option PyVal) : PyVal → PyVal
  | .str s => (loads s).getD (.str s)
  | v => v

/-- The one-shot top-level decoding step of `_extract_alarm_payloads`:
a string event is `_maybe_json`-decoded once before shape matching. -/
def decodeTopLevel (loads : String → Option PyVal) (event : PyVal) : PyVal :=
  match event with
  | .str _ => _maybe_json loads event
  | v => v

/-- `record.get("Sns", \x7b\x7d).get("Message") if isinstance(record, dict)
else None`: the inner `.get` raises `AttributeError` when the `Sns`
entry exists but is not a dict. -/
def snsMessage (record : PyVal) : Except Err PyVal :=
  match record with
  | .dict kvs =>
    match (dictGet kvs "Sns").getD (.dict []) with
    | .dict skvs => .ok ((dictGet skvs "Message").getD .none)
    | _ => .error (.attributeError "get")
  | _ => .ok .none

/-- The `Records` loop of `_extract_alarm_payloads`: falsy messages are
skipped (with a logged warning), JSON-object messages are kept decoded,
anything else becomes `\x7b"raw_message": message\x7d`. -/
def snsPayloads (loads : String → Option PyVal) : List PyVal → Except Err (List PyVal)
  | [] => .ok []
  | record :: rest =>
    match snsMessage record with
    | .error e => .error e
    | .ok message =>
      if truthy message then
        match snsPayloads loads rest with
        | .error e => .error e
        | .ok tail =>
          match _maybe_json loads message with
          | .dict kvs => .ok (PyVal.dict kvs :: tail)
          | _ => .ok (PyVal.dict [("raw_message", message)] :: tail)
      else snsPayloads loads rest

/-- The list-shape loop of `_extract_alarm_payloads`: decode string
items, keep only those that are JSON objects. -/
def listPayloads (loads : String → Option PyVal) (items : List PyVal) : List PyVal :=
  items.filterMap (fun item =>
    match _maybe_json loads item with
    | .dict kvs => some (PyVal.dict kvs)
    | _ => Option.none)

/-- The direct-alarm-body check of `_extract_alarm_payloads`: a dict
carrying both `AlarmName` and `NewStateValue` is the single payload;
otherwise (the dict matched no shape) `ValueError` is raised. -/
def directShape (kvs : List (String × PyVal)) : Except Err (List PyVal) :=
  if dictContains kvs "AlarmName" && dictContains kvs "NewStateValue" then
    .ok [.dict kvs]
  else .error .unsupportedEventShape

/-- The shape dispatch of `_extract_alarm_payloads`, applied after the
one-shot top-level decode: try in order the SNS fan-out shape, the
EventBridge state-change shape, the direct alarm body, and the list
shape; raise `ValueError` when none matches. -/
def matchShapes (loads : String → Option PyVal) (event : PyVal) : Except Err (List PyVal) :=
  match event with
  | .dict kvs =>
    match dictGet kvs "Records" with
    | some (.list records) => snsPayloads loads records
    | _ =>
      let stateChange : Bool := match dictGet kvs "detail-type" with
        | some (.str s) => s == "CloudWatch Alarm State Change"
        | _ => false
      if stateChange then
        match dictGet kvs "detail" with
        | some (.dict dkvs) => .ok [.dict dkvs]
        | _ => directShape kvs
      else directShape kvs
  | .list items => .ok (listPayloads loads items)
  | _ => .error .unsupportedEventShape

/-- `_extract_alarm_payloads(event)`: decode a top-level string once,
then dispatch on the shape. -/
def _extract_alarm_payloads (loads : String → Option PyVal) (event : PyVal) :
    Except Err (List PyVal) :=
  matchShapes loads (decodeTopLevel loads event)

/-- `_build_summary(alarm)`: `"[CloudWatch] \x7bname\x7d is \x7bstate\x7d"` with
`"Unknown Alarm"` / `"UNKNOWN"` substituted for missing fields, sliced
to the first 255 characters after formatting. -/
def _build_summary (alarm : List (String × PyVal)) : String :=
  let alarm_name := (dictGet alarm "AlarmName").getD (.str "Unknown Alarm")
  let state := (dictGet alarm "NewStateValue").getD (.str "UNKNOWN")
  pytake ("[CloudWatch] " ++ pyStr alarm_name ++ " is " ++ pyStr state) 255

/-- `_build_description(alarm)`: the fixed labelled-section text, with
the optional `Trigger` and `raw_message` blocks; the trailing
`"\n".join` raises `TypeError` when the `NewStateReason` value is not a
string (the only part not formatted through an f-string). -/
def _build_description (alarm : List (String × PyVal)) : Except Err String :=
  let fmt := fun (k d : String) => pyStr ((dictGet alarm k).getD (.str d))
  match (dictGet alarm "NewStateReason").getD (.str "N/A") with
  | .str reason =>
    let base := ["CloudWatch alarm transitioned state.", "",
      "Alarm Name: " ++ fmt "AlarmName" "N/A",
      "Alarm Description: " ++ fmt "AlarmDescription" "N/A",
      "AWS Account: " ++ fmt "AWSAccountId" "N/A",
      "Region: " ++ fmt "Region" "N/A",
      "State Change Time: " ++ fmt "StateChangeTime" "N/A",
      "Previous State: " ++ fmt "OldStateValue" "UNKNOWN",
      "Current State: " ++ fmt "NewStateValue" "UNKNOWN",
      "", "New State Reason:", reason]
    let trigger := (dictGet alarm "Trigger").getD .none
    let withTrigger := if truthy trigger
      then base ++ ["", "Trigger:", jsonDumpsIndent2 trigger] else base
    let raw := (dictGet alarm "raw_message").getD .none
    let parts := if truthy raw then
        withTrigger ++ ["", "Original Message:",
          match raw with | .str s => s | v => jsonDumpsIndent2 v]
      else withTrigger
    .ok (pyjoin "\n" parts)
  | _ => .error (.typeError "sequence item 11: expected str instance")

/-- `_build_issue_fields(alarm)`: project, summary, description,
issue type and labels (in the dict literal's evaluation order), then
optional components, then the assignee (account-id form preferred over
the legacy username form). -/
def _build_issue_fields (cfg : Config) (alarm : List (String × PyVal)) : Except Err PyVal :=
  match get_project_key cfg with
  | .error e => .error e
  | .ok project_key =>
    let summary := _build_summary alarm
    match _build_description alarm with
    | .error e => .error e
    | .ok description =>
      match get_issue_type cfg with
      | .error e => .error e
      | .ok issue_type =>
        match get_alarm_label cfg with
        | .error e => .error e
        | .ok labels =>
          let base := [("project", PyVal.dict [("key", project_key)]),
                       ("summary", PyVal.str summary),
                       ("description", PyVal.str description),
                       ("issuetype", PyVal.dict [("name", issue_type)]),
                       ("labels", PyVal.list (labels.map PyVal.str))]
          match get_components cfg with
          | .error e => .error e
          | .ok components =>
            let withComponents := if components.isEmpty then base
              else base ++ [("components",
                PyVal.list (components.map (fun n => PyVal.dict [("name", PyVal.str n)])))]
            match _get_env cfg "JIRA_DEFAULT_ASSIGNEE_ACCOUNT_ID" false .none with
            | .error e => .error e
            | .ok assignee_account_id =>
              if truthy assignee_account_id then
                .ok (.dict (withComponents ++ [("assignee", PyVal.dict [("id", assignee_account_id)])]))
              else
                match _get_env cfg "JIRA_DEFAULT_ASSIGNEE" false .none with
                | .error e => .error e
                | .ok assignee =>
                  if truthy assignee then
                    .ok (.dict (withComponents ++ [("assignee", PyVal.dict [("name", assignee)])]))
                  else .ok (.dict withComponents)

/-- The body of the handler's per-alarm `try` block for a dict alarm:
every exception inside it is caught, so the outcome is total.  The
degenerate single-key `raw_message` shape short-circuits before any
field building or tracker call; a `JIRAError` from `create_issue`
becomes a `jira_error` outcome; any other exception becomes an
`unexpected_exception` outcome. -/
def processDict (cfg : Config) (kvs : List (String × PyVal)) : PyVal :=
  if dictContains kvs "raw_message" && dictLen kvs == 1 then
    .dict [("error", .str "unstructured_alarm_message"),
           ("alarm", (dictGet kvs "raw_message").getD .none)]
  else
    let alarmName := (dictGet kvs "AlarmName").getD .none
    match _build_issue_fields cfg kvs with
    | .error e =>
      .dict [("error", .str "unexpected_exception"),
             ("details", .str (errMsg e)), ("alarm", alarmName)]
    | .ok fields =>
      match cfg.create fields with
      | .ok issue_key =>
        .dict [("issue_key", .str issue_key), ("action", .str "created")]
      | .error (.jira text) =>
        .dict [("error", .str "jira_error"),
               ("details", .str text), ("alarm", alarmName)]
      | .error (.other msg) =>
        .dict [("error", .str "unexpected_exception"),
               ("details", .str msg), ("alarm", alarmName)]

/-- One iteration of the handler's alarm loop.  Extraction only ever
yields dicts; on a non-dict alarm the `alarm.get("AlarmName")` inside
the `except` handler itself raises `AttributeError`, which escapes the
handler. -/
def processAlarm (cfg : Config) : PyVal → Except Err PyVal
  | .dict kvs => .ok (processDict cfg kvs)
  | _ => .error (.attributeError "get")

/-- The handler's return value
`\x7b"request_id": ..., "processed": len(outcomes), "results": outcomes\x7d`. -/
structure HandlerResult where
  request_id : PyVal
  processed : Nat
  results : List PyVal

/-- The handler's alarm loop: process the records strictly in order,
appending one outcome each. -/
def processAll (cfg : Config) : List PyVal → Except Err (List PyVal)
  | [] => .ok []
  | a :: rest =>
    match processAlarm cfg a with
    | .error e => .error e
    | .ok o =>
      match processAll cfg rest with
      | .error e => .error e
      | .ok os => .ok (o :: os)

/-- `handler(event, context)`: extract the alarm records (failures
re-raised), bootstrap the tracker client (required-setting failures
raised), then process each record in order, collecting one outcome per
record. -/
def handler (cfg : Config) (request_id : PyVal) (event : PyVal) : Except Err HandlerResult :=
  match _extract_alarm_payloads cfg.loads event with
  | .error e => .error e
  | .ok alarms =>
    match get_jira_client cfg with
    | .error e => .error e
    | .ok _ =>
      match processAll cfg alarms with
      | .error e => .error e
      | .ok outcomes => .ok ⟨request_id, outcomes.length, outcomes⟩

/-! Supporting lemmas. -/

/-- Taking at least `p.length` characters from `p ++ l` keeps `p` a
prefix. -/
theorem isPrefixOf_take_append (p l : List Char) (n : Nat) (h : p.length ≤ n) :
    p.isPrefixOf ((p ++ l).take n) = true := by
  rw [List.isPrefixOf_iff_prefix, List.take_append_eq_append_take,
    List.take_of_length_le h]
  exact List.prefix_append ..

/-- `pylen` of a string built from an explicit character list. -/
theorem pylen_mk (l : List Char) : pylen (String.mk l) = l.length := rfl

end JiraAlarm

namespace JiraAlarm

/-- C4: the built summary is `"[CloudWatch] \x7bAlarmName\x7d is
\x7bNewStateValue\x7d"` with `"Unknown Alarm"` / `"UNKNOWN"` substituted for a
missing name or state, truncated to at most 255 characters after
formatting so that the `"[CloudWatch] "` prefix is always preserved; the
`CPUHigh`/`ALARM` record yields exactly `"[CloudWatch] CPUHigh is
ALARM"`, and any 300-character alarm name yields a summary of exactly
255 characters. -/
theorem C4_build_summary_spec :
    (∀ name state : String,
      _build_summary [("AlarmName", .str name), ("NewStateValue", .str state)] =
        pytake ("[CloudWatch] " ++ name ++ " is " ++ state) 255) ∧
    (∀ state : String,
      _build_summary [("NewStateValue", .str state)] =
        pytake ("[CloudWatch] Unknown Alarm is " ++ state) 255) ∧
    (∀ name : String,
      _build_summary [("AlarmName", .str name)] =
        pytake ("[CloudWatch] " ++ name ++ " is UNKNOWN") 255) ∧
    (∀ alarm, pylen (_build_summary alarm) ≤ 255) ∧
    (∀ alarm, pystarts (_build_summary alarm) "[CloudWatch] " = true) ∧
    (_build_summary [("AlarmName", .str "CPUHigh"), ("NewStateValue", .str "ALARM")] =
      "[CloudWatch] CPUHigh is ALARM") ∧
    (∀ name state : String, pylen name = 300 →
      pylen (_build_summary [("AlarmName", .str name), ("NewStateValue", .str state)]) = 255) := by
  refine ⟨fun name state => rfl, fun state => rfl, ?_, ?_, ?_, rfl, ?_⟩
  · intro name
    have e : ("[CloudWatch] " ++ name ++ " is UNKNOWN" : String) =
        "[CloudWatch] " ++ name ++ " is " ++ "UNKNOWN" := by
      apply String.ext
      simp [String.data_append, List.append_assoc]
    rw [e]
    rfl
  · intro alarm
    simp only [_build_summary, pylen, pytake, List.length_take]
    exact min_le_left ..
  · intro alarm
    simp only [_build_summary, pystarts, pytake, String.data_append, List.append_assoc]
    exact isPrefixOf_take_append _ _ _ (by decide)
  · intro name state h
    have e : _build_summary [("AlarmName", .str name), ("NewStateValue", .str state)] =
        pytake ("[CloudWatch] " ++ name ++ " is " ++ state) 255 := rfl
    rw [e]
    simp only [pylen, pytake, List.length_take, String.data_append, List.length_append]
    simp only [pylen] at h
    have h13 : ("[CloudWatch] " : String).data.length = 13 := by decide
    have h4 : (" is " : String).data.length = 4 := by decide
    omega

/-- Witness for C4 at a concrete 300-character alarm name. -/
theorem C4_build_summary_spec_witness :
    pylen (String.mk (List.replicate 300 'a')) = 300 ∧
    pylen (_build_summary [("AlarmName", .str (String.mk (List.replicate 300 'a'))),
      ("NewStateValue", .str "ALARM")]) = 255 :=
  ⟨by rw [pylen_mk, List.length_replicate],
   C4_build_summary_spec.2.2.2.2.2.2 _ "ALARM" (by rw [pylen_mk, List.length_replicate])⟩

/-- C3: a record that is exactly the degenerate single-key
`\x7b"raw_message": v\x7d` shape yields the outcome
`\x7b"error": "unstructured_alarm_message", "alarm": v\x7d` — for every
configuration, in particular for every tracker `create` operation and
project listing, so no tracker operation is consulted — and the batch
loop continues with the remaining records. -/
theorem C3_unstructured_alarm (cfg : Config) (v : PyVal) :
    processAlarm cfg (.dict [("raw_message", v)]) =
      .ok (.dict [("error", .str "unstructured_alarm_message"), ("alarm", v)]) ∧
    ∀ rest, processAll cfg (.dict [("raw_message", v)] :: rest) =
      (processAll cfg rest).map
        (fun os => .dict [("error", .str "unstructured_alarm_message"), ("alarm", v)] :: os) := by
  constructor
  · rfl
  · intro rest
    cases h : processAll cfg rest <;>
      simp [processAll, h, Except.map, processAlarm, processDict, dictContains, dictGet, dictLen,
        show (["raw_message"] : List String).eraseDups.length = 1 from rfl]

/-- A configuration whose only setting is
`JIRA_ALARM_LABEL="Prod Outage, SEV1"`. -/
def cfgC8 : Config :=
  ⟨fun n => if n = "JIRA_ALARM_LABEL" then some "Prod Outage, SEV1" else Option.none,
   fun _ => Option.none, fun _ => Option.none, [], fun _ => Except.error (.other "unused")⟩

/-- C8: evaluating `get_alarm_label` at the configured value
`"Prod Outage, SEV1"`.  The code strips each comma-separated token and
replaces its spaces by hyphens but never lower-cases it, yielding
`["Prod-Outage", "SEV1"]` rather than the `["prod-outage", "sev1"]`
required by the specification and by the function's own comment that
Jira labels must be lower-case. -/
theorem C8_labels_not_lowercased :
    get_alarm_label cfgC8 = .ok ["Prod-Outage", "SEV1"] ∧
    get_alarm_label cfgC8 ≠ .ok ["prod-outage", "sev1"] := by
  constructor
  · rfl
  · intro h
    rw [show get_alarm_label cfgC8 = .ok ["Prod-Outage", "SEV1"] from rfl] at h
    simp at h

/-- Evaluation of `_resolve_secret_reference` on the canonical keyless
reference: everything up to the secret fetch is concrete. -/
theorem resolve_noKey_eval (c : Config) :
    _resolve_secret_reference c "{{resolve:secretsmanager:region:secret-id:SecretString::}}" =
      match c.secrets "region:secret-id" with
      | Option.none => .error (.secretAccessError "region:secret-id")
      | some secret_string => .ok (.str secret_string) := rfl

/-- Evaluation of `_resolve_secret_reference` on the canonical keyed
reference: everything up to the secret fetch and JSON decode is
concrete. -/
theorem resolve_key_eval (c : Config) :
    _resolve_secret_reference c "{{resolve:secretsmanager:region:secret-id:SecretString:apiKey::}}" =
      match c.secrets "region:secret-id" with
      | Option.none => .error (.secretAccessError "region:secret-id")
      | some secret_string =>
        match c.loads secret_string with
        | Option.none =>
          .error (.valueError ("Secret " ++ pyq "region:secret-id" ++
            " is not JSON; cannot extract key " ++ pyq "apiKey"))
        | some (.dict kvs) =>
          match dictGet kvs "apiKey" with
          | some v => .ok v
          | Option.none => .error (.keyError "apiKey")
        | some (.str s2) =>
          if pycontains s2 "apiKey" then .error (.typeError "string indices must be integers")
          else .error (.keyError "apiKey")
        | some (.list xs) =>
          if xs.any (fun x => match x with | .str s => s == "apiKey" | _ => false) then
            .error (.typeError "list indices must be integers or slices, not str")
          else .error (.keyError "apiKey")
        | some _ => .error (.typeError "argument is not iterable") := rfl

/-- C5: resolving the well-formed reference
`\x7b\x7bresolve:secretsmanager:region:secret-id:SecretString...::\x7d\x7d`
against any secret-store contents: the keyless form returns the
secret's raw string; the `:apiKey` form parses the secret as JSON and
returns the value at that key, failing with a `ValueError` when the
secret string is not valid JSON and with a `KeyError` when the key is
absent from the decoded object; in particular against the secret
`\x7b"apiKey":"tok123"\x7d` the keyed form yields `"tok123"`. -/
theorem C5_resolve_secret_reference (cfg : Config) (sec : String)
    (hsec : cfg.secrets "region:secret-id" = some sec) :
    (_resolve_secret_reference cfg
      "{{resolve:secretsmanager:region:secret-id:SecretString::}}" = .ok (.str sec)) ∧
    (∀ kvs v, cfg.loads sec = some (.dict kvs) → dictGet kvs "apiKey" = some v →
      _resolve_secret_reference cfg
        "{{resolve:secretsmanager:region:secret-id:SecretString:apiKey::}}" = .ok v) ∧
    (cfg.loads sec = Option.none →
      _resolve_secret_reference cfg
        "{{resolve:secretsmanager:region:secret-id:SecretString:apiKey::}}" =
        .error (.valueError ("Secret " ++ pyq "region:secret-id" ++
          " is not JSON; cannot extract key " ++ pyq "apiKey"))) ∧
    (∀ kvs, cfg.loads sec = some (.dict kvs) → dictGet kvs "apiKey" = Option.none →
      _resolve_secret_reference cfg
        "{{resolve:secretsmanager:region:secret-id:SecretString:apiKey::}}" =
        .error (.keyError "apiKey")) := by
  refine ⟨?_, ?_, ?_, ?_⟩
  · rw [resolve_noKey_eval]
    simp [hsec]
  · intro kvs v hload hget
    rw [resolve_key_eval]
    simp [hsec, hload, hget]
  · intro hload
    rw [resolve_key_eval]
    simp [hsec, hload]
  · intro kvs hload hget
    rw [resolve_key_eval]
    simp [hsec, hload, hget]

/-- A configuration holding the secret `\x7b"apiKey":"tok123"\x7d` under the
id `region:secret-id`, with a JSON decoder defined at that one string. -/
def cfgC5w : Config :=
  ⟨fun _ => Option.none,
   fun n => if n = "region:secret-id" then some "\x7b\"apiKey\":\"tok123\"\x7d" else Option.none,
   fun s => if s = "\x7b\"apiKey\":\"tok123\"\x7d" then
      some (.dict [("apiKey", .str "tok123")]) else Option.none,
   [], fun _ => Except.error (.other "unused")⟩

/-- Witness for C5: the keyed reference against `\x7b"apiKey":"tok123"\x7d`
yields `"tok123"`. -/
theorem C5_resolve_secret_reference_witness :
    _resolve_secret_reference cfgC5w
      "{{resolve:secretsmanager:region:secret-id:SecretString:apiKey::}}" =
      .ok (.str "tok123") :=
  (C5_resolve_secret_reference cfgC5w _ rfl).2.1 _ _ rfl rfl

/-- A configuration with no settings, secrets or parseable JSON. -/
def cfgC9 : Config :=
  ⟨fun _ => Option.none, fun _ => Option.none, fun _ => Option.none, [],
   fun _ => Except.error (.other "unused")⟩

/-- C9 counterexample: a reference written with wrong (single-brace)
delimiters does not fail fast — `_resolve_secret_reference` silently
passes the raw value through unchanged. -/
theorem C9_wrong_delimiters_pass_through :
    _resolve_secret_reference cfgC9
      "\x7bresolve:secretsmanager:my-secret:SecretString::\x7d" =
      .ok (.str "\x7bresolve:secretsmanager:my-secret:SecretString::\x7d") := rfl

/-- C9 (amended): only a missing `SecretString` marker fails fast with
a descriptive `ValueError`; a value lacking the exact
`\x7b\x7bresolve:secretsmanager:` opening or `\x7d\x7d` closing is not treated as
a reference at all and is returned unchanged. -/
theorem C9_malformed_reference (cfg : Config) (value : String) :
    (¬ (value ≠ "" ∧ pystarts value "\x7b\x7bresolve:secretsmanager:" = true ∧
        pyends value "\x7d\x7d" = true) →
      _resolve_secret_reference cfg value = .ok (.str value)) ∧
    (∀ sv rem, value ≠ "" → pystarts value "\x7b\x7bresolve:secretsmanager:" = true →
      pyends value "\x7d\x7d" = true →
      pysplitMax ":" (pytrimEnds2 value) 2 = [sv, "secretsmanager", rem] →
      pycontains rem ":SecretString" = false →
      _resolve_secret_reference cfg value =
        .error (.valueError
          ("Secrets Manager reference missing SecretString directive: " ++ value))) := by
  constructor
  · intro h
    have hc : (decide (value = "") || !pystarts value "\x7b\x7bresolve:secretsmanager:" ||
        !pyends value "\x7d\x7d") = true := by
      by_cases h1 : value = ""
      · simp [h1]
      · by_cases h2 : pystarts value "\x7b\x7bresolve:secretsmanager:" = true
        · by_cases h3 : pyends value "\x7d\x7d" = true
          · exact absurd ⟨h1, h2, h3⟩ h
          · simp [h3]
        · simp [h2]
    simp only [_resolve_secret_reference]
    rw [if_pos hc]
  · intro sv rem h1 h2 h3 hsplit hcont
    have hc : (decide (value = "") || !pystarts value "\x7b\x7bresolve:secretsmanager:" ||
        !pyends value "\x7d\x7d") = false := by
      simp [h1, h2, h3]
    simp only [_resolve_secret_reference]
    rw [hc]
    simp only [Bool.false_eq_true, if_false, hsplit, hcont]
    simp

/-- Witness for C9 (amended): a plain non-reference value passes
through, and a delimited reference missing the `SecretString` marker
raises the descriptive error. -/
theorem C9_malformed_reference_witness :
    _resolve_secret_reference cfgC9 "host.example.com" = .ok (.str "host.example.com") ∧
    _resolve_secret_reference cfgC9 "{{resolve:secretsmanager:my-secret}}" =
      .error (.valueError
        ("Secrets Manager reference missing SecretString directive: " ++
          "{{resolve:secretsmanager:my-secret}}")) :=
  ⟨(C9_malformed_reference cfgC9 "host.example.com").1 (by intro h; exact absurd h.2.1 (by decide)),
   (C9_malformed_reference cfgC9 "{{resolve:secretsmanager:my-secret}}").2 "resolve" "my-secret"
     (by decide) (by decide) (by decide) rfl rfl⟩

/-- A configuration whose only setting is `SOME_SETTING=""` (present
but empty), with no fallback secret configured. -/
def cfgC6 : Config :=
  ⟨fun n => if n = "SOME_SETTING" then some "" else Option.none,
   fun _ => Option.none, fun _ => Option.none, [],
   fun _ => Except.error (.other "unused")⟩

/-- C6 counterexample: with the environment variable present but empty
and the name absent from the fallback payload, `_get_env` returns the
empty string and does **not** apply the supplied default, because the
default is only applied when the value so far is Python `None`. -/
theorem C6_default_skipped_for_empty_env :
    _get_env cfgC6 "SOME_SETTING" false (.str "fallback-default") = .ok (.str "") ∧
    _get_env cfgC6 "SOME_SETTING" false (.str "fallback-default") ≠
      .ok (.str "fallback-default") := by
  constructor
  · rfl
  · intro h
    rw [show _get_env cfgC6 "SOME_SETTING" false (.str "fallback-default") =
      .ok (.str "") from rfl] at h
    simp at h

/-- C6 (amended): setting resolution follows the order environment
value (dereferenced, used when truthy), then fallback-payload entry,
then default — but the default is applied only when the value so far is
Python `None` (environment unset and name absent from the payload); a
present-but-empty environment value that misses the payload is returned
as-is, skipping the default; and a required setting whose final value
is falsy raises `ConfigurationError`. -/
theorem C6_get_env_resolution_order (cfg : Config) (name : String)
    (required : Bool) (default : PyVal) :
    (∀ v, envStep cfg name = .ok v → truthy v = true →
      _get_env cfg name required default = .ok v) ∧
    (∀ v payload pv, envStep cfg name = .ok v → truthy v = false →
      _get_secret_payload cfg = .ok payload → dictGet payload name = some pv →
      truthy pv = true →
      _get_env cfg name required default = .ok pv) ∧
    (∀ payload, cfg.env name = Option.none → _get_secret_payload cfg = .ok payload →
      dictGet payload name = Option.none → required = false →
      _get_env cfg name required default = .ok default) ∧
    (∀ payload, cfg.env name = some "" → _get_secret_payload cfg = .ok payload →
      dictGet payload name = Option.none → required = false →
      _get_env cfg name required default = .ok (.str "")) ∧
    (∀ payload, cfg.env name = Option.none → _get_secret_payload cfg = .ok payload →
      dictGet payload name = Option.none → required = true → truthy default = false →
      _get_env cfg name required default = .error (.configurationError name)) := by
  refine ⟨?_, ?_, ?_, ?_, ?_⟩
  · intro v hv htr
    simp only [_get_env, hv, fallbackStep, htr, if_true]
    cases v with
    | none => simp [truthy] at htr
    | _ => simp [htr]
  · intro v payload pv hv htr hpay hget htrpv
    simp only [_get_env, hv, fallbackStep, htr, Bool.false_eq_true, if_false, hpay, hget]
    cases pv with
    | none => simp [truthy] at htrpv
    | _ => simp [htrpv]
  · intro payload henv hpay hget hreq
    have hv : envStep cfg name = .ok .none := by simp [envStep, henv]
    simp [_get_env, hv, fallbackStep, truthy, hpay, hget, hreq]
  · intro payload henv hpay hget hreq
    have hv : envStep cfg name = .ok (.str "") := by simp [envStep, henv]
    simp [_get_env, hv, fallbackStep, truthy, hpay, hget, hreq]
  · intro payload henv hpay hget hreq htrd
    have hv : envStep cfg name = .ok .none := by simp [envStep, henv]
    simp [_get_env, hv, fallbackStep, show truthy PyVal.none = false from rfl,
      hpay, hget, hreq, htrd]

/-- A configuration exercising all three resolution sources: `A` set in
the environment, `B` only present in the fallback secret payload named
by `JIRA_SECRET_NAME`, and `C` nowhere. -/
def cfgC6w : Config :=
  ⟨fun n => if n = "A" then some "hello"
    else if n = "JIRA_SECRET_NAME" then some "S" else Option.none,
   fun n => if n = "S" then some "PAYLOAD" else Option.none,
   fun s => if s = "PAYLOAD" then some (.dict [("B", .str "frompayload")]) else Option.none,
   [], fun _ => Except.error (.other "unused")⟩

/-- Witness for C6 (amended): the environment wins for `A`, the
fallback payload supplies `B`, the default supplies `C`, and a required
unresolvable `C` raises `ConfigurationError`. -/
theorem C6_get_env_resolution_order_witness :
    _get_env cfgC6w "A" false .none = .ok (.str "hello") ∧
    _get_env cfgC6w "B" false .none = .ok (.str "frompayload") ∧
    _get_env cfgC6w "C" false (.str "dflt") = .ok (.str "dflt") ∧
    _get_env cfgC6w "C" true .none = .error (.configurationError "C") :=
  ⟨(C6_get_env_resolution_order cfgC6w "A" false .none).1 _ rfl rfl,
   (C6_get_env_resolution_order cfgC6w "B" false .none).2.1 _ _ _ rfl rfl rfl rfl rfl,
   (C6_get_env_resolution_order cfgC6w "C" false (.str "dflt")).2.2.1 _ rfl rfl rfl rfl,
   (C6_get_env_resolution_order cfgC6w "C" true .none).2.2.2.2 _ rfl rfl rfl rfl rfl⟩

/-- What one fan-out record contributes: `none` when its message is
falsy (the record is skipped), otherwise the decoded object or the
`raw_message` wrapper. -/
def snsRecordOut (loads : String → Option PyVal) (record : PyVal) :
    Except Err (Option PyVal) :=
  match snsMessage record with
  | .error e => .error e
  | .ok message =>
    if truthy message then
      match _maybe_json loads message with
      | .dict kvs => .ok (some (.dict kvs))
      | _ => .ok (some (.dict [("raw_message", message)]))
    else .ok Option.none

/-- A successful fan-out extraction is exactly the in-order
`filterMap` of the per-record contributions. -/
theorem snsPayloads_ok_eq (loads : String → Option PyVal) :
    ∀ (recs out : List PyVal), snsPayloads loads recs = .ok out →
    out = recs.filterMap (fun r => ((snsRecordOut loads r).toOption).bind id) := by
  intro recs
  induction recs with
  | nil =>
    intro out h
    simp only [snsPayloads] at h
    cases h
    rfl
  | cons r rest ih =>
    intro out h
    simp only [snsPayloads] at h
    cases hm : snsMessage r with
    | error e => simp only [hm] at h; exact absurd h (by simp)
    | ok message =>
      simp only [hm] at h
      by_cases htr : truthy message = true
      · simp only [htr, if_true] at h
        cases hrest : snsPayloads loads rest with
        | error e => simp only [hrest] at h; exact absurd h (by simp)
        | ok tail =>
          simp only [hrest] at h
          have htail := ih tail hrest
          cases hcand : _maybe_json loads message <;>
            simp only [hcand, Except.ok.injEq] at h <;>
            subst h <;>
            simp [List.filterMap_cons, snsRecordOut, hm, htr, hcand, Except.toOption, htail]
      · simp only [htr, if_false, Bool.false_eq_true] at h
        have htail := ih out h
        simp [List.filterMap_cons, snsRecordOut, hm, htr, Except.toOption, htail]

/-- When the dict has no `Records` list, `matchShapes` falls through to
the state-change / direct-shape dispatch. -/
theorem matchShapes_dict_no_records (loads : String → Option PyVal)
    (kvs : List (String × PyVal))
    (hnr : ∀ rs, dictGet kvs "Records" ≠ some (.list rs)) :
    matchShapes loads (.dict kvs) =
      (let stateChange : Bool := match dictGet kvs "detail-type" with
        | some (.str s) => s == "CloudWatch Alarm State Change"
        | _ => false
      if stateChange then
        match dictGet kvs "detail" with
        | some (.dict dkvs) => .ok [.dict dkvs]
        | _ => directShape kvs
      else directShape kvs) := by
  cases hR : dictGet kvs "Records" with
  | none => simp only [matchShapes, hR]
  | some val =>
    cases val with
    | list rs => exact absurd hR (hnr rs)
    | _ => simp only [matchShapes, hR]

/-- C2: extraction decodes a top-level JSON-encoded string event once —
and only once: a string decoding to another string matches no shape and
fails, as does an undecodable string — then tries the four recognized
shapes in the stated order: the fan-out `Records` envelope wins over
everything else, then the state-change envelope, then the direct alarm
body; a list event takes the list shape; fan-out and list outputs are
the in-order `filterMap` of the per-record contributions, and a dict
matching no shape fails with the unsupported-shape `ValueError`. -/
theorem C2_extract_ordered_shapes (loads : String → Option PyVal) :
    (∀ event, _extract_alarm_payloads loads event =
      matchShapes loads (decodeTopLevel loads event)) ∧
    (∀ s v, loads s = some v →
      _extract_alarm_payloads loads (.str s) = matchShapes loads v) ∧
    (∀ s t, loads s = some (.str t) →
      _extract_alarm_payloads loads (.str s) = .error .unsupportedEventShape) ∧
    (∀ s, loads s = Option.none →
      _extract_alarm_payloads loads (.str s) = .error .unsupportedEventShape) ∧
    (∀ kvs recs, dictGet kvs "Records" = some (.list recs) →
      matchShapes loads (.dict kvs) = snsPayloads loads recs) ∧
    (∀ kvs dkvs, (∀ rs, dictGet kvs "Records" ≠ some (.list rs)) →
      dictGet kvs "detail-type" = some (.str "CloudWatch Alarm State Change") →
      dictGet kvs "detail" = some (.dict dkvs) →
      matchShapes loads (.dict kvs) = .ok [.dict dkvs]) ∧
    (∀ kvs, (∀ rs, dictGet kvs "Records" ≠ some (.list rs)) →
      (∀ dkvs, dictGet kvs "detail-type" = some (.str "CloudWatch Alarm State Change") →
        dictGet kvs "detail" ≠ some (.dict dkvs)) →
      dictContains kvs "AlarmName" = true → dictContains kvs "NewStateValue" = true →
      matchShapes loads (.dict kvs) = .ok [.dict kvs]) ∧
    (∀ kvs, (∀ rs, dictGet kvs "Records" ≠ some (.list rs)) →
      (∀ dkvs, dictGet kvs "detail-type" = some (.str "CloudWatch Alarm State Change") →
        dictGet kvs "detail" ≠ some (.dict dkvs)) →
      (dictContains kvs "AlarmName" && dictContains kvs "NewStateValue") = false →
      matchShapes loads (.dict kvs) = .error .unsupportedEventShape) ∧
    (∀ items, matchShapes loads (.list items) = .ok (listPayloads loads items)) ∧
    (∀ recs out, snsPayloads loads recs = .ok out →
      out = recs.filterMap (fun r => ((snsRecordOut loads r).toOption).bind id)) := by
  have hdirect : ∀ kvs, dictContains kvs "AlarmName" = true →
      dictContains kvs "NewStateValue" = true → directShape kvs = .ok [.dict kvs] := by
    intro kvs h1 h2
    simp [directShape, h1, h2]
  have hdirectFail : ∀ kvs,
      (dictContains kvs "AlarmName" && dictContains kvs "NewStateValue") = false →
      directShape kvs = .error .unsupportedEventShape := by
    intro kvs h1
    simp only [directShape, h1, Bool.false_eq_true, if_false]
  have hfall : ∀ kvs, (∀ rs, dictGet kvs "Records" ≠ some (.list rs)) →
      (∀ dkvs, dictGet kvs "detail-type" = some (.str "CloudWatch Alarm State Change") →
        dictGet kvs "detail" ≠ some (.dict dkvs)) →
      matchShapes loads (.dict kvs) = directShape kvs := by
    intro kvs hnr h2
    rw [matchShapes_dict_no_records loads kvs hnr]
    cases hdt : dictGet kvs "detail-type" with
    | none => rfl
    | some val =>
      cases val with
      | str s =>
        by_cases hs : s = "CloudWatch Alarm State Change"
        · subst hs
          simp only [show ("CloudWatch Alarm State Change" ==
              "CloudWatch Alarm State Change") = true from rfl, if_true]
          cases hdet : dictGet kvs "detail" with
          | none => rfl
          | some dv =>
            cases dv with
            | dict dkvs => exact absurd hdet (h2 dkvs hdt)
            | _ => rfl
        · have : (s == "CloudWatch Alarm State Change") = false := by
            simp [hs]
          simp only [this, Bool.false_eq_true, if_false]
      | _ => rfl
  refine ⟨fun event => rfl, ?_, ?_, ?_, ?_, ?_, ?_, ?_, fun items => rfl,
    snsPayloads_ok_eq loads⟩
  · intro s v h
    simp [_extract_alarm_payloads, decodeTopLevel, _maybe_json, h]
  · intro s t h
    simp [_extract_alarm_payloads, decodeTopLevel, _maybe_json, h, matchShapes]
  · intro s h
    simp [_extract_alarm_payloads, decodeTopLevel, _maybe_json, h, matchShapes]
  · intro kvs recs h
    simp [matchShapes, h]
  · intro kvs dkvs hnr hdt hdet
    rw [matchShapes_dict_no_records loads kvs hnr]
    simp only [hdt, hdet,
      show ("CloudWatch Alarm State Change" == "CloudWatch Alarm State Change") = true from rfl,
      if_true]
  · intro kvs hnr h2 hAN hNS
    rw [hfall kvs hnr h2]
    exact hdirect kvs hAN hNS
  · intro kvs hnr h2 hfail
    rw [hfall kvs hnr h2]
    exact hdirectFail kvs hfail

/-- A JSON decoder defined at two strings: `"E"` decodes to a direct
alarm body, `"S"` decodes to another string. -/
def loadsC2 : String → Option PyVal := fun s =>
  if s = "E" then some (.dict [("AlarmName", .str "A"), ("NewStateValue", .str "ALARM")])
  else if s = "S" then some (.str "inner") else Option.none

/-- Witness for C2 at concrete events of each shape. -/
theorem C2_extract_ordered_shapes_witness :
    _extract_alarm_payloads loadsC2 (.str "S") = .error .unsupportedEventShape ∧
    _extract_alarm_payloads loadsC2 (.str "nope") = .error .unsupportedEventShape ∧
    matchShapes loadsC2 (.dict [("Records", .list []), ("AlarmName", .str "A"),
      ("NewStateValue", .str "ALARM")]) = snsPayloads loadsC2 [] ∧
    matchShapes loadsC2 (.dict [("detail-type", .str "CloudWatch Alarm State Change"),
      ("detail", .dict [("AlarmName", .str "A")])]) = .ok [.dict [("AlarmName", .str "A")]] ∧
    matchShapes loadsC2 (.dict [("AlarmName", .str "A"), ("NewStateValue", .str "ALARM")]) =
      .ok [.dict [("AlarmName", .str "A"), ("NewStateValue", .str "ALARM")]] ∧
    matchShapes loadsC2 (.dict [("foo", .int 1)]) = .error .unsupportedEventShape :=
  ⟨(C2_extract_ordered_shapes loadsC2).2.2.1 "S" "inner" rfl,
   (C2_extract_ordered_shapes loadsC2).2.2.2.1 "nope" rfl,
   (C2_extract_ordered_shapes loadsC2).2.2.2.2.1 _ [] rfl,
   (C2_extract_ordered_shapes loadsC2).2.2.2.2.2.1 _ _
     (by intro rs h; simp [dictGet] at h) rfl rfl,
   (C2_extract_ordered_shapes loadsC2).2.2.2.2.2.2.1 _
     (by intro rs h; simp [dictGet] at h)
     (by intro dkvs h; simp [dictGet] at h) rfl rfl,
   (C2_extract_ordered_shapes loadsC2).2.2.2.2.2.2.2.1 _
     (by intro rs h; simp [dictGet] at h)
     (by intro dkvs h; simp [dictGet] at h) rfl⟩

/-- C10: a fan-out record whose `Sns.Message` string decodes as JSON to
a non-mapping value (array, number, boolean, null or string) is kept as
the degenerate `\x7b"raw_message": <original message string>\x7d` record —
the decoded value is discarded — both per record and through a full
extraction; only a message decoding to a JSON object is kept
structured. -/
theorem C10_non_mapping_message_kept_raw (loads : String → Option PyVal)
    (msg : String) (v : PyVal) (hload : loads msg = some v)
    (hnd : ∀ kvs, v ≠ .dict kvs) (hne : msg ≠ "") :
    (snsRecordOut loads (.dict [("Sns", .dict [("Message", .str msg)])]) =
      .ok (some (.dict [("raw_message", .str msg)]))) ∧
    (_extract_alarm_payloads loads
      (.dict [("Records", .list [.dict [("Sns", .dict [("Message", .str msg)])]])]) =
      .ok [.dict [("raw_message", .str msg)]]) ∧
    (∀ msg2 kvs2, loads msg2 = some (.dict kvs2) → msg2 ≠ "" →
      snsRecordOut loads (.dict [("Sns", .dict [("Message", .str msg2)])]) =
        .ok (some (.dict kvs2))) := by
  have hmsg : snsMessage (.dict [("Sns", .dict [("Message", .str msg)])]) =
      .ok (.str msg) := rfl
  have htr : truthy (.str msg) = true := by simp [truthy, hne]
  have hmj : _maybe_json loads (.str msg) = v := by simp [_maybe_json, hload]
  refine ⟨?_, ?_, ?_⟩
  · cases v with
    | dict kvs => exact absurd rfl (hnd kvs)
    | _ => simp only [snsRecordOut, hmsg, htr, if_true, hmj]
  · rw [show _extract_alarm_payloads loads
      (.dict [("Records", .list [.dict [("Sns", .dict [("Message", .str msg)])]])]) =
      snsPayloads loads [.dict [("Sns", .dict [("Message", .str msg)])]] from rfl]
    cases v with
    | dict kvs => exact absurd rfl (hnd kvs)
    | _ => simp only [snsPayloads, hmsg, htr, if_true, hmj]
  · intro msg2 kvs2 hload2 hne2
    have hmsg2 : snsMessage (.dict [("Sns", .dict [("Message", .str msg2)])]) =
        .ok (.str msg2) := rfl
    have htr2 : truthy (.str msg2) = true := by simp [truthy, hne2]
    have hmj2 : _maybe_json loads (.str msg2) = .dict kvs2 := by simp [_maybe_json, hload2]
    simp only [snsRecordOut, hmsg2, htr2, if_true, hmj2]

/-- A JSON decoder under which `"[1]"` decodes to a JSON array. -/
def loadsC10 : String → Option PyVal := fun s =>
  if s = "[1]" then some (.list [.int 1]) else Option.none

/-- Witness for C10: the message `"[1]"` decodes to an array and is
kept as a `raw_message` record. -/
theorem C10_non_mapping_message_kept_raw_witness :
    _extract_alarm_payloads loadsC10
      (.dict [("Records", .list [.dict [("Sns", .dict [("Message", .str "[1]")])]])]) =
      .ok [.dict [("raw_message", .str "[1]")]] :=
  (C10_non_mapping_message_kept_raw loadsC10 "[1]" (.list [.int 1]) rfl
    (fun kvs h => PyVal.noConfusion h) (by decide)).2.1

/-- Every record the list shape keeps is a dict. -/
theorem listPayloads_all_dict (loads : String → Option PyVal) (items : List PyVal) :
    ∀ a ∈ listPayloads loads items, ∃ kvs, a = PyVal.dict kvs := by
  intro a ha
  simp only [listPayloads, List.mem_filterMap] at ha
  obtain ⟨item, _, hmatch⟩ := ha
  cases hmj : _maybe_json loads item <;> rw [hmj] at hmatch <;> simp at hmatch
  exact ⟨_, hmatch.symm⟩

/-- Every record the fan-out shape yields is a dict. -/
theorem snsPayloads_all_dict (loads : String → Option PyVal) :
    ∀ (recs out : List PyVal), snsPayloads loads recs = .ok out →
    ∀ a ∈ out, ∃ kvs, a = PyVal.dict kvs := by
  intro recs
  induction recs with
  | nil =>
    intro out h a ha
    simp only [snsPayloads] at h
    cases h
    simp at ha
  | cons r rest ih =>
    intro out h a ha
    simp only [snsPayloads] at h
    cases hm : snsMessage r with
    | error e => simp only [hm] at h; exact absurd h (by simp)
    | ok message =>
      simp only [hm] at h
      by_cases htr : truthy message = true
      · simp only [htr, if_true] at h
        cases hrest : snsPayloads loads rest with
        | error e => simp only [hrest] at h; exact absurd h (by simp)
        | ok tail =>
          simp only [hrest] at h
          cases hcand : _maybe_json loads message <;>
              simp only [hcand, Except.ok.injEq] at h <;> subst h <;>
              rcases List.mem_cons.mp ha with rfl | hmem <;>
            first
              | exact ⟨_, rfl⟩
              | exact ih tail hrest a hmem
      · simp only [htr, if_false, Bool.false_eq_true] at h
        exact ih out h a ha

/-- Every record the direct-alarm-body check yields is a dict. -/
theorem directShape_all_dict (kvs : List (String × PyVal)) (alarms : List PyVal)
    (h : directShape kvs = .ok alarms) : ∀ a ∈ alarms, ∃ k, a = PyVal.dict k := by
  intro a ha
  simp only [directShape] at h
  split at h
  · injection h with h
    subst h
    simp at ha
    exact ⟨kvs, ha⟩
  · exact absurd h (by simp)

/-- Every record a successful extraction yields is a dict. -/
theorem extract_ok_all_dict (loads : String → Option PyVal) (event : PyVal)
    (alarms : List PyVal) (h : _extract_alarm_payloads loads event = .ok alarms) :
    ∀ a ∈ alarms, ∃ kvs, a = PyVal.dict kvs := by
  intro a ha
  unfold _extract_alarm_payloads at h
  cases hd : decodeTopLevel loads event <;> rw [hd] at h <;>
    simp only [matchShapes] at h
  case none => exact absurd h (by simp)
  case bool b => exact absurd h (by simp)
  case int n => exact absurd h (by simp)
  case str s => exact absurd h (by simp)
  case list items =>
    injection h with h
    subst h
    exact listPayloads_all_dict loads items a ha
  case dict kvs =>
    split at h
    · exact snsPayloads_all_dict loads _ alarms h a ha
    · split at h
      · split at h
        · injection h with h
          subst h
          simp at ha
          exact ⟨_, ha⟩
        · exact directShape_all_dict kvs alarms h a ha
      · exact directShape_all_dict kvs alarms h a ha

/-- On a batch of dict records the alarm loop never fails: it yields
exactly one outcome per record, in order, the `i`-th outcome being the
processing of the `i`-th record. -/
theorem processAll_all_dict (cfg : Config) :
    ∀ (alarms : List PyVal), (∀ a ∈ alarms, ∃ kvs, a = PyVal.dict kvs) →
    ∃ outs, processAll cfg alarms = .ok outs ∧ outs.length = alarms.length ∧
      ∀ (i : Nat) (kvs : List (String × PyVal)), alarms[i]? = some (.dict kvs) →
        outs[i]? = some (processDict cfg kvs) := by
  intro alarms
  induction alarms with
  | nil =>
    intro _
    exact ⟨[], rfl, rfl, by intro i kvs hi; simp at hi⟩
  | cons a rest ih =>
    intro hall
    obtain ⟨kvs, rfl⟩ := hall a (List.mem_cons_self ..)
    obtain ⟨outs, hout, hlen, hpt⟩ := ih (fun x hx => hall x (List.mem_cons_of_mem _ hx))
    refine ⟨processDict cfg kvs :: outs, ?_, by simp [hlen], ?_⟩
    · simp [processAll, processAlarm, hout]
    · intro i kvs2 hi
      cases i with
      | zero =>
        simp only [List.getElem?_cons_zero, Option.some.injEq] at hi ⊢
        cases hi
        rfl
      | succ n =>
        simp only [List.getElem?_cons_succ] at hi ⊢
        exact hpt n kvs2 hi

/-- C1: when extraction succeeds with `n` alarm records and the three
required tracker settings resolve, the handler returns a successful
response with exactly `n` outcomes, one per record in the records'
input order (the `i`-th outcome is the processing of the `i`-th
record); a `JIRAError` raised by the tracker's `create_issue` for one
record becomes that record's `jira_error` outcome, and the batch is
never aborted by it. -/
theorem C1_batch_isolation (cfg : Config) (request_id event : PyVal)
    (alarms : List PyVal)
    (hex : _extract_alarm_payloads cfg.loads event = .ok alarms)
    (hcli : get_jira_client cfg = .ok ()) :
    (∃ outs, handler cfg request_id event = .ok ⟨request_id, alarms.length, outs⟩ ∧
      outs.length = alarms.length ∧
      ∀ (i : Nat) (kvs : List (String × PyVal)), alarms[i]? = some (.dict kvs) →
        outs[i]? = some (processDict cfg kvs)) ∧
    (∀ kvs fields text,
      (dictContains kvs "raw_message" && dictLen kvs == 1) = false →
      _build_issue_fields cfg kvs = .ok fields →
      cfg.create fields = .error (.jira text) →
      processDict cfg kvs = .dict [("error", .str "jira_error"), ("details", .str text),
        ("alarm", (dictGet kvs "AlarmName").getD .none)]) := by
  constructor
  · obtain ⟨outs, hout, hlen, hpt⟩ :=
      processAll_all_dict cfg alarms (extract_ok_all_dict cfg.loads event alarms hex)
    refine ⟨outs, ?_, hlen, hpt⟩
    simp only [handler, hex, hcli, hout, hlen]
  · intro kvs fields text hcond hfields hcreate
    simp only [processDict, hcond, Bool.false_eq_true, if_false, hfields, hcreate]

/-- Three direct alarm records `A`, `B`, `C`. -/
def alarmsC1 : List PyVal :=
  [.dict [("AlarmName", .str "A"), ("NewStateValue", .str "ALARM")],
   .dict [("AlarmName", .str "B"), ("NewStateValue", .str "ALARM")],
   .dict [("AlarmName", .str "C"), ("NewStateValue", .str "ALARM")]]

/-- A configuration whose tracker rejects exactly the issue whose
summary names alarm `B` and files everything else as `OPS-1`. -/
def cfgC1 : Config :=
  ⟨fun n => if n = "JIRA_HOST" then some "h" else if n = "JIRA_EMAIL" then some "e"
    else if n = "JIRA_API_TOKEN" then some "t"
    else if n = "JIRA_PROJECT_KEY" then some "OPS" else Option.none,
   fun _ => Option.none, fun _ => Option.none, [],
   fun fields =>
     match fields with
     | .dict l =>
       match dictGet l "summary" with
       | some (.str s) =>
         if s = "[CloudWatch] B is ALARM" then Except.error (.jira "project invalid")
         else Except.ok "OPS-1"
       | _ => Except.ok "OPS-1"
     | _ => Except.ok "OPS-1"⟩

/-- The fields built for record `B` under `cfgC1`. -/
def fieldsB : PyVal :=
  (_build_issue_fields cfgC1
    [("AlarmName", .str "B"), ("NewStateValue", .str "ALARM")]).toOption.getD .none

/-- Witness for C1: a three-record batch whose middle record draws a
tracker error still yields three in-order outcomes, the middle one a
`jira_error`. -/
theorem C1_batch_isolation_witness :
    (∃ outs, handler cfgC1 .none (.list alarmsC1) = .ok ⟨.none, alarmsC1.length, outs⟩ ∧
      outs.length = alarmsC1.length ∧
      ∀ (i : Nat) (kvs : List (String × PyVal)), alarmsC1[i]? = some (.dict kvs) →
        outs[i]? = some (processDict cfgC1 kvs)) ∧
    processDict cfgC1 [("AlarmName", .str "B"), ("NewStateValue", .str "ALARM")] =
      .dict [("error", .str "jira_error"), ("details", .str "project invalid"),
        ("alarm", .str "B")] :=
  ⟨(C1_batch_isolation cfgC1 .none (.list alarmsC1) alarmsC1 rfl rfl).1,
   (C1_batch_isolation cfgC1 .none (.list alarmsC1) alarmsC1 rfl rfl).2
     [("AlarmName", .str "B"), ("NewStateValue", .str "ALARM")] fieldsB "project invalid"
     rfl rfl rfl⟩

/-- A configuration with tracker host, email and token set but no
project key or name and no fallback secret. -/
def cfgC7 : Config :=
  ⟨fun n => if n = "JIRA_HOST" then some "h" else if n = "JIRA_EMAIL" then some "e"
    else if n = "JIRA_API_TOKEN" then some "t" else Option.none,
   fun _ => Option.none, fun _ => Option.none, [],
   fun _ => Except.ok "OPS-1"⟩

/-- C7 counterexample: with host, email and token resolved but the
project key/name pair unresolvable, the invocation does **not** abort —
the required-setting failure inside `get_project_key` is caught by the
per-record handler, and the caller receives a successful response
carrying a partial (`unexpected_exception`) per-record result. -/
theorem C7_project_failure_not_fatal :
    handler cfgC7 .none (.dict [("AlarmName", .str "A"), ("NewStateValue", .str "ALARM")]) =
      .ok ⟨.none, 1, [.dict [("error", .str "unexpected_exception"),
        ("details", .str (errMsg (.configurationError "JIRA_PROJECT_NAME"))),
        ("alarm", .str "A")]]⟩ := rfl

/-- C7 (amended): a failure to resolve the tracker host, email or API
token aborts the invocation before any record is processed (the
caller sees the raised failure, no partial results); a failure to
resolve the project key/name pair does not abort — it is caught inside
the per-record loop and surfaces as that record's
`unexpected_exception` outcome. -/
theorem C7_required_settings_abort (cfg : Config) (request_id event : PyVal) :
    (∀ alarms e, _extract_alarm_payloads cfg.loads event = .ok alarms →
      _get_env cfg "JIRA_HOST" true .none = .error e →
      handler cfg request_id event = .error e) ∧
    (∀ alarms h e, _extract_alarm_payloads cfg.loads event = .ok alarms →
      _get_env cfg "JIRA_HOST" true .none = .ok h →
      _get_env cfg "JIRA_EMAIL" true .none = .error e →
      handler cfg request_id event = .error e) ∧
    (∀ alarms h m e, _extract_alarm_payloads cfg.loads event = .ok alarms →
      _get_env cfg "JIRA_HOST" true .none = .ok h →
      _get_env cfg "JIRA_EMAIL" true .none = .ok m →
      _get_env cfg "JIRA_API_TOKEN" true .none = .error e →
      handler cfg request_id event = .error e) ∧
    (∀ kvs e, get_project_key cfg = .error e →
      (dictContains kvs "raw_message" && dictLen kvs == 1) = false →
      processDict cfg kvs = .dict [("error", .str "unexpected_exception"),
        ("details", .str (errMsg e)),
        ("alarm", (dictGet kvs "AlarmName").getD .none)]) := by
  refine ⟨?_, ?_, ?_, ?_⟩
  · intro alarms e hex hhost
    simp only [handler, hex, get_jira_client, hhost]
  · intro alarms h e hex hhost hemail
    simp only [handler, hex, get_jira_client, hhost, hemail]
  · intro alarms h m e hex hhost hemail htoken
    simp only [handler, hex, get_jira_client, hhost, hemail, htoken]
  · intro kvs e hpk hcond
    simp only [processDict, hcond, Bool.false_eq_true, if_false,
      _build_issue_fields, hpk]

/-- A configuration with only the tracker host set. -/
def cfgC7b : Config :=
  ⟨fun n => if n = "JIRA_HOST" then some "h" else Option.none,
   fun _ => Option.none, fun _ => Option.none, [], fun _ => Except.ok "OPS-1"⟩

/-- Witness for C7 (amended): a missing email aborts the whole
invocation, while a missing project key/name only marks the record. -/
theorem C7_required_settings_abort_witness :
    handler cfgC7b .none (.dict [("AlarmName", .str "A"), ("NewStateValue", .str "ALARM")]) =
      .error (.configurationError "JIRA_EMAIL") ∧
    processDict cfgC7 [("AlarmName", .str "A"), ("NewStateValue", .str "ALARM")] =
      .dict [("error", .str "unexpected_exception"),
        ("details", .str (errMsg (.configurationError "JIRA_PROJECT_NAME"))),
        ("alarm", .str "A")] :=
  ⟨(C7_required_settings_abort cfgC7b .none
      (.dict [("AlarmName", .str "A"), ("NewStateValue", .str "ALARM")])).2.1
      [.dict [("AlarmName", .str "A"), ("NewStateValue", .str "ALARM")]]
      (.str "h") (.configurationError "JIRA_EMAIL") rfl rfl rfl,
   (C7_required_settings_abort cfgC7 .none .none).2.2.2
      [("AlarmName", .str "A"), ("NewStateValue", .str "ALARM")]
      (.configurationError "JIRA_PROJECT_NAME") rfl rfl⟩

end JiraAlarm

